import Mathlib

namespace SentinelDrift

/-- Contiguous-sublist test on character lists (Boolean, structurally recursive). -/
def infixOfCL (needle : List Char) : List Char → Bool
  | [] => needle.isEmpty
  | c :: rest => needle.isPrefixOf (c :: rest) || infixOfCL needle rest

/-- Python substring test: `sub in s`. Empty needle is always contained. -/
def strContains (s sub : String) : Bool :=
  infixOfCL sub.data s.data

/-- Python `str.startswith`. -/
def pyStartsWith (s pre : String) : Bool :=
  pre.data.isPrefixOf s.data

/-- Strip the characters in `cs` from both ends of a character list. -/
def stripCharsList (cs : List Char) (l : List Char) : List Char :=
  ((l.dropWhile (fun c => c ∈ cs)).reverse.dropWhile (fun c => c ∈ cs)).reverse

/-- Python `str.strip(chars)`: remove any of the given characters from both ends. -/
def pyStripChars (cs : List Char) (s : String) : String :=
  ⟨stripCharsList cs s.data⟩

/-- Python `str.strip()`: remove whitespace from both ends. -/
def pyStrip (s : String) : String :=
  ⟨((s.data.dropWhile Char.isWhitespace).reverse.dropWhile Char.isWhitespace).reverse⟩

/-- Split a character list at the first occurrence of `sep`: the part before
the separator and the part after it, or `none` when `sep` does not occur.
Only called with a non-empty separator. -/
def splitFirst (sep : List Char) : List Char → Option (List Char × List Char)
  | [] => if sep.isPrefixOf ([] : List Char) then some ([], []) else none
  | c :: rest =>
    if sep.isPrefixOf (c :: rest) then some ([], (c :: rest).drop sep.length)
    else (splitFirst sep rest).map (fun p => (c :: p.1, p.2))

/-- Fuel-driven worker for `pySplit`; fuel bounds the number of consumed
characters, so `s.length` fuel is always enough. -/
def splitAllAux (sep : List Char) : Nat → List Char → List Char → List (List Char)
  | 0, acc, s => [acc.reverse ++ s]
  | _ + 1, acc, [] => [acc.reverse]
  | fuel + 1, acc, c :: rest =>
    if sep.isPrefixOf (c :: rest) then
      acc.reverse :: splitAllAux sep fuel [] ((c :: rest).drop sep.length)
    else
      splitAllAux sep fuel (c :: acc) rest

/-- Python `s.split(sep)` with a non-empty separator: every non-overlapping
occurrence splits, scanning left to right. -/
def pySplit (s sep : String) : List String :=
  (splitAllAux sep.data s.data.length [] s.data).map (fun cs => ⟨cs⟩)

/-- Python `s.split(sep, 2)`: at most two splits, from the left. -/
def pySplit2 (s sep : String) : List String :=
  match splitFirst sep.data s.data with
  | none => [s]
  | some (a, rest) =>
    match splitFirst sep.data rest with
    | none => [⟨a⟩, ⟨rest⟩]
    | some (b, rest2) => [⟨a⟩, ⟨b⟩, ⟨rest2⟩]

/-- Python `s.replace(pat, "")` (the only replacement the source uses):
delete every non-overlapping occurrence of `pat`, scanning left to right. -/
def pyReplace (s pat : String) : String :=
  String.join (pySplit s pat)

/-- A wall-clock timestamp as produced by `datetime.strptime` on the
`"%Y-%m-%d %H:%M:%S"` format used by the audit log. -/
structure DateTime where
  year : Nat
  month : Nat
  day : Nat
  hour : Nat
  minute : Nat
  second : Nat
deriving Repr, DecidableEq

/-- Order-preserving encoding of a (range-checked) timestamp into one number;
`datetime` comparison in the source is chronological order. -/
def DateTime.toKey (t : DateTime) : Nat :=
  ((((t.year * 13 + t.month) * 32 + t.day) * 24 + t.hour) * 60 + t.minute) * 60 + t.second

/-- Gregorian leap-year rule, as applied by `datetime`. -/
def isLeapYear (y : Nat) : Bool :=
  decide ((y % 4 = 0 ∧ y % 100 ≠ 0) ∨ y % 400 = 0)

/-- Number of days in a month, as validated by the `datetime` constructor. -/
def daysInMonth (y m : Nat) : Nat :=
  if m = 2 then (if isLeapYear y then 29 else 28)
  else if m = 4 ∨ m = 6 ∨ m = 9 ∨ m = 11 then 30
  else 31

/-- Leading run of ASCII digits and the remainder of the list. -/
def digitSpan (s : List Char) : List Char × List Char :=
  (s.takeWhile Char.isDigit, s.dropWhile Char.isDigit)

/-- Numeric value of a digit run. -/
def digitsVal (ds : List Char) : Nat :=
  ds.foldl (fun a c => a * 10 + (c.toNat - 48)) 0

/-- Consume one expected literal character. -/
def expectChar (c : Char) : List Char → Option (List Char)
  | [] => none
  | x :: rest => if x = c then some rest else none

/-- Read a numeric field of one or two digits (the `strptime` directives
`%m`, `%H`, `%M`, `%S` match one or two digits, never more). -/
def readNum2 (s : List Char) : Option (Nat × List Char) :=
  let p := digitSpan s
  if p.1.length = 0 ∨ 2 < p.1.length then none
  else some (digitsVal p.1, p.2)

/-- Read the `%d` day field: one or two digits, or a space-padded
single non-zero digit, exactly as the `strptime` day pattern allows. -/
def readDayField : List Char → Option (Nat × List Char)
  | ' ' :: c :: rest =>
    if c.isDigit ∧ c ≠ '0' then some (c.toNat - 48, rest) else none
  | cs => readNum2 cs

/-- Model of `datetime.strptime(ts, "%Y-%m-%d %H:%M:%S")`: exactly four year
digits, one-or-two-digit fields with the literal separators, a full match of
the whole string, and the range checks `strptime` and the `datetime`
constructor enforce (month 1-12, calendar-valid day, hour below 24, minute
and second below 60, year at least 1). Returns `none` where Python raises
`ValueError`. -/
def parseTimestamp (s : String) : Option DateTime := do
  let cs := s.data
  let yp := digitSpan cs
  if yp.1.length ≠ 4 then none else do
  let year := digitsVal yp.1
  let r1 ← expectChar '-' yp.2
  let (month, r2) ← readNum2 r1
  if month = 0 ∨ 12 < month then none else do
  let r3 ← expectChar '-' r2
  let (day, r4) ← readDayField r3
  let r5 ← expectChar ' ' r4
  let (hour, r6) ← readNum2 r5
  if 23 < hour then none else do
  let r7 ← expectChar ':' r6
  let (minute, r8) ← readNum2 r7
  if 59 < minute then none else do
  let r9 ← expectChar ':' r8
  let (second, r10) ← readNum2 r9
  if 59 < second then none else do
  if ¬ r10.isEmpty then none else do
  if year = 0 then none else do
  if day = 0 ∨ daysInMonth year month < day then none else
  some ⟨year, month, day, hour, minute, second⟩

/-- Per-host counters from the `stats` part of the Ansible JSON payload. -/
structure Stat where
  unreachable : Nat
  failures : Nat
deriving Repr, DecidableEq

/-- One host's result object inside a task (`skipped`, `msg`), keyed by host. -/
structure HostResult where
  host : String
  skipped : Bool
  msg : String
deriving Repr, DecidableEq

/-- One task of a play: its name and the per-host results in document order. -/
structure RTask where
  name : String
  hosts : List HostResult
deriving Repr, DecidableEq

/-- One play: its tasks in document order. -/
structure Play where
  tasks : List RTask
deriving Repr, DecidableEq

/-- A decoded structured run payload: `stats` is a finite map from host to
counters (JSON objects have unique keys), `plays` the ordered play list. -/
structure Payload where
  stats : List (String × Stat)
  plays : List Play
deriving Repr, DecidableEq

/-- The fixed drift-reporting task-name set (module constant `DRIFT_TASKS`). -/
def DRIFT_TASKS : List String :=
  ["Display Diff", "Display Metadata Drift", "Display Missing File Warning",
   "Display Vault Error"]

/-- The fixed fix-applied task-name set (module constant `FIX_TASKS`). -/
def FIX_TASKS : List String :=
  ["Display Fix Applied"]

abbrev MsgDict := List (String × List String)

/-- `d[host].append(msg)` on a Python dict of lists: appends to the entry of
`host`, or raises `KeyError` (modelled as `.error host`) when absent. -/
def dictAppend : MsgDict → String → String → Except String MsgDict
  | [], host, _ => .error host
  | (k, vs) :: rest, host, msg =>
    if k = host then .ok ((k, vs ++ [msg]) :: rest)
    else (dictAppend rest host msg).map (fun r => (k, vs) :: r)

/-- `d.get(host, [])` on a Python dict of lists. -/
def dictGet (d : MsgDict) (host : String) : List String :=
  match d.find? (fun e => e.1 = host) with
  | some e => e.2
  | none => []

/-- Append every non-skipped result's message to its host's list, in order
(the inner `for host, result in task['hosts'].items()` loop). -/
def processTaskHosts (d : MsgDict) : List HostResult → Except String MsgDict
  | [] => .ok d
  | r :: rest =>
    if r.skipped then processTaskHosts d rest
    else
      match dictAppend d r.host r.msg with
      | .error h => .error h
      | .ok d2 => processTaskHosts d2 rest

/-- Route one task to the drift dict or the fix dict by its name. -/
def processTask (acc : MsgDict × MsgDict) (t : RTask) : Except String (MsgDict × MsgDict) :=
  if t.name ∈ DRIFT_TASKS then
    match processTaskHosts acc.1 t.hosts with
    | .error h => .error h
    | .ok d => .ok (d, acc.2)
  else if t.name ∈ FIX_TASKS then
    match processTaskHosts acc.2 t.hosts with
    | .error h => .error h
    | .ok f => .ok (acc.1, f)
  else .ok acc

/-- Fold over a play's tasks in order. -/
def processTasks (acc : MsgDict × MsgDict) : List RTask → Except String (MsgDict × MsgDict)
  | [] => .ok acc
  | t :: rest =>
    match processTask acc t with
    | .error h => .error h
    | .ok acc2 => processTasks acc2 rest

/-- Fold over the plays in order. -/
def processPlays (acc : MsgDict × MsgDict) : List Play → Except String (MsgDict × MsgDict)
  | [] => .ok acc
  | p :: rest =>
    match processTasks acc p.tasks with
    | .error h => .error h
    | .ok acc2 => processPlays acc2 rest

/-- Empty per-host message dict keyed by the hosts of `stats`. -/
def initDict (p : Payload) : MsgDict :=
  p.stats.map (fun hs => (hs.1, ([] : List String)))

/-- The collection phase of `parse_ansible_json` (lines 184-203): build the
per-host drift and fix message lists; `.error host` models the uncaught
`KeyError` raised when a non-skipped result names a host absent from `stats`. -/
def collect (p : Payload) : Except String (MsgDict × MsgDict) :=
  processPlays (initDict p, initDict p) p.plays

/-- The per-host state vocabulary of the report. -/
inductive HostState where
  | UNREACHABLE
  | FAILED
  | FIXED
  | DRIFTED
  | COMPLIANT
deriving Repr, DecidableEq

/-- The fixed-file extraction loop (lines 229-233): from each fix message
containing the `"FIXED: "` marker, take the text after the first marker and
before any second one (`split` element 1) and strip whitespace. -/
def extractFixedFiles (fixes : List String) : List String :=
  (fixes.filter (fun m => strContains m "FIXED: ")).map
    (fun m => pyStrip ((pySplit m "FIXED: ").getD 1 ""))

/-- A drift message counts as fixed when some fixed-file path is a substring
of it (lines 238-242). -/
def isFixedDrift (fixedFiles : List String) (dmsg : String) : Bool :=
  fixedFiles.any (fun f => strContains dmsg f)

/-- The drift messages that survive the suppression filter, in order
(lines 235-244). -/
def remainingDrifts (fixedFiles : List String) (drifts : List String) : List String :=
  drifts.filter (fun d => ¬ isFixedDrift fixedFiles d)

/-- The sections the summary loop prints for one host (lines 206-254): each
section is a status header plus the detail messages printed under it, in
print order. -/
def hostSections (drifts fixes : List String) (st : Stat) : List (HostState × List String) :=
  if 0 < st.unreachable then [(.UNREACHABLE, [])]
  else if 0 < st.failures then [(.FAILED, [])]
  else if drifts = [] ∧ fixes = [] then [(.COMPLIANT, [])]
  else
    (if fixes = [] then [] else [(HostState.FIXED, fixes)]) ++
    (match remainingDrifts (extractFixedFiles fixes) drifts with
     | [] => []
     | rem => [(HostState.DRIFTED, rem)])

/-- One host's reduced report entry. -/
structure ReportEntry where
  host : String
  sections : List (HostState × List String)
deriving Repr, DecidableEq

/-- The status headers shown for an entry, in print order. -/
def ReportEntry.states (e : ReportEntry) : List HostState :=
  e.sections.map Prod.fst

/-- The detail lines shown for an entry, in print order. -/
def ReportEntry.details (e : ReportEntry) : List String :=
  (e.sections.map Prod.snd).flatten

/-- Reduce one host of `stats` given the collected drift/fix dicts. -/
def summarize (hostDrifts hostFixes : MsgDict) (host : String) (st : Stat) : ReportEntry :=
  ⟨host, hostSections (dictGet hostDrifts host) (dictGet hostFixes host) st⟩

/-- Overall outcome of `parse_ansible_json`: a decode failure message, an
uncaught `KeyError`, or the per-host report in `stats` order. -/
inductive RunResult where
  | parseFailure
  | keyError (host : String)
  | report (entries : List ReportEntry)
deriving Repr, DecidableEq

/-- `parse_ansible_json` after the `json.loads` step: `decoded` is `none`
exactly when the input string is not valid JSON (the `JSONDecodeError`
branch, lines 173-177). -/
def parse_ansible_json (decoded : Option Payload) : RunResult :=
  match decoded with
  | none => .parseFailure
  | some p =>
    match collect p with
    | .error h => .keyError h
    | .ok df => .report (p.stats.map (fun hs => summarize df.1 df.2 hs.1 hs.2))

/-- The only line printed on a JSON decode failure (line 176), color escapes
aside: a fixed message that does not mention the raw input. -/
def parseFailureLines : List String :=
  ["❌ Failed to parse Ansible JSON output."]

/-- Status header text printed for a host in a given state (lines 208-247). -/
def stateHeader (host : String) : HostState → String
  | .UNREACHABLE => "❌ " ++ host ++ ": UNREACHABLE"
  | .FAILED => "❌ " ++ host ++ ": FAILED"
  | .COMPLIANT => "✅ " ++ host ++ ": OK (Compliant)"
  | .FIXED => "🔧 " ++ host ++ ": FIXED"
  | .DRIFTED => "⚠️  " ++ host ++ ": DRIFT DETECTED"

/-- The console lines a `RunResult` produces (indentation and blank-line
separators aside): an uncaught `KeyError` prints no summary at all. -/
def runOutputLines : RunResult → List String
  | .parseFailure => parseFailureLines
  | .keyError _ => []
  | .report entries =>
    "=== 🛡️  Sentinel-Drift Report ===" ::
      (entries.map (fun e =>
        (e.sections.map (fun s => stateHeader e.host s.1 :: s.2)).flatten)).flatten

/-- The quiet-mode tail of `main` (lines 458-465): raw stderr and stdout are
surfaced only when the external process exited non-zero and its stdout does
not begin with a brace; otherwise the decoded payload goes to
`parse_ansible_json`. -/
def quietModeLines (returncode : Int) (stdout stderr : String) (decoded : Option Payload) : List String :=
  if returncode ≠ 0 ∧ ¬ pyStartsWith (pyStrip stdout) "\x7b" then
    ["❌ Ansible execution failed:", stderr, stdout]
  else
    runOutputLines (parse_ansible_json decoded)

/-- One entry of the `host_report` dict of `parse_audit_log`: the host key,
the running status string (`"OK"`, `"DRIFT"` or `"FIXED"`), and the collected
messages. Entries are kept in first-seen (insertion) order. -/
structure HostEntry where
  host : String
  status : String
  messages : List String
deriving Repr, DecidableEq

/-- The fixed annotation appended for a `vault_error` drift (line 324). -/
def vaultErrorNote : String :=
  "\n    ⚠️  VAULT ERROR: Source file is encrypted but password was missing."

/-- Field-extraction step of the detail loop (lines 305-313): strip the part
and, on a recognized `key: ` marker, overwrite that field by deleting every
occurrence of the marker; `acc` is `(host, file_path, drift_type)`. -/
def updateFields (acc : String × String × String) (part0 : String) : String × String × String :=
  let part := pyStrip part0
  if pyStartsWith part "Host: " then (pyReplace part "Host: ", acc.2.1, acc.2.2)
  else if pyStartsWith part "File: " then (acc.1, pyReplace part "File: ", acc.2.2)
  else if pyStartsWith part "Type: " then (acc.1, acc.2.1, pyReplace part "Type: ")
  else acc

/-- The bracketed-timestamp step (lines 276-289): `none` when the stripped
line does not begin with `"["` or when the text before the first `"]"`,
stripped of brackets, fails `strptime`. -/
def lineTimestamp (line0 : String) : Option DateTime :=
  let line := pyStrip line0
  if ¬ pyStartsWith line "[" then none
  else parseTimestamp (pyStripChars ['['] ((pySplit line "]").headD ""))

/-- The pipe-delimited detail section of a line, after the second `"] "`
split (lines 292-298): empty when the split yields fewer than three parts. -/
def lineDetails (line0 : String) : String :=
  let parts := pySplit2 (pyStrip line0) "] "
  if 2 < parts.length then parts.getD 2 "" else ""

/-- The structured content of one log line, ignoring the cutoff test:
`none` when the `"] "` split yields fewer than two parts; otherwise the
status (brackets stripped) and the `Host`/`File`/`Type` fields, each
defaulting to `"Unknown"` (lines 292-313). -/
def lineContent (line0 : String) : Option (String × String × String × String) :=
  let line := pyStrip line0
  let parts := pySplit2 line "] "
  if parts.length < 2 then none
  else
    let status := pyStripChars ['[', ']'] (parts.getD 1 "")
    let fields := List.foldl updateFields ("Unknown", "Unknown", "Unknown")
      (pySplit (lineDetails line0) " | ")
    some (status, fields.1, fields.2.1, fields.2.2)

/-- The record one line contributes: `none` when the line is skipped for a
missing marker, an unparseable timestamp, a pre-cutoff timestamp, or a
missing `"] "` separator. -/
def lineRecord (cutoff : DateTime) (line0 : String) : Option (String × String × String × String) :=
  match lineTimestamp line0 with
  | none => none
  | some logTime =>
    if logTime.toKey < cutoff.toKey then none
    else lineContent line0

/-- Apply one recognized record to the running report (lines 315-333): the
host entry is created with status `"OK"` on first sight; a `DRIFT` record
overwrites the status with `"DRIFT"` and appends a formatted message (with
the vault-error annotation when the type is `vault_error`); a `FIXED` record
overwrites the status with `"FIXED"` and appends a fixed-file message; any
other status leaves the entry unchanged. -/
def applyRecord (report : List HostEntry) (status host filePath driftType : String) : List HostEntry :=
  let report1 :=
    if report.any (fun e => e.host = host) then report
    else report ++ [⟨host, "OK", []⟩]
  if status = "DRIFT" then
    report1.map (fun e =>
      if e.host = host then
        ⟨e.host, "DRIFT", e.messages ++
          [("File: " ++ filePath ++ " (Type: " ++ driftType ++ ")") ++
            (if driftType = "vault_error" then vaultErrorNote else "")]⟩
      else e)
  else if status = "FIXED" then
    report1.map (fun e =>
      if e.host = host then
        ⟨e.host, "FIXED", e.messages ++ ["File: " ++ filePath ++ " (FIXED)"]⟩
      else e)
  else report1

/-- Process one raw log line: skipped lines leave the report unchanged. -/
def processLine (cutoff : DateTime) (report : List HostEntry) (line : String) : List HostEntry :=
  match lineRecord cutoff line with
  | none => report
  | some r => applyRecord report r.1 r.2.1 r.2.2.1 r.2.2.2

/-- `parse_audit_log`: fold the raw lines in file order into the per-host
report, starting from the empty report. Only entries at or after the cutoff
are considered. -/
def parse_audit_log (cutoff : DateTime) (lines : List String) : List HostEntry :=
  lines.foldl (processLine cutoff) []

/-- Status of a host in the report, `none` when the host has no entry. -/
def statusOf (report : List HostEntry) (h : String) : Option String :=
  (report.find? (fun e => e.host = h)).map HostEntry.status

/-- The transient helper script written by `setup_vault_password`
(lines 122-124): a fixed text that echoes the `SENTINEL_VAULT_PASS`
environment variable; it never mentions the password value. -/
def vaultScript : String :=
  "#!/bin/sh\necho \"$SENTINEL_VAULT_PASS\"\n"

/-- `setup_vault_password` (lines 97-138): `vaultPassArg` is the CLI
argument (`none` or a value, with `"__PROMPT__"` meaning prompt) and
`promptedValue` what `getpass` would return. The result is the content
written to the transient script together with the password value the caller
will place in the environment; `none` when no vault password was requested
(Python also treats an empty argument as absent). -/
def setup_vault_password (vaultPassArg : Option String) (promptedValue : String) :
    Option (String × String) :=
  match vaultPassArg with
  | none => none
  | some arg =>
    if arg = "" then none
    else some (vaultScript, if arg = "__PROMPT__" then promptedValue else arg)

/-- The `SENTINEL_VAULT_PASS` environment entry `main` sets (lines 398-400):
present only when a non-empty password value came back. -/
def sentinelEnv (setupResult : Option (String × String)) : Option String :=
  match setupResult with
  | none => none
  | some r => if r.2 = "" then none else some r.2

/-- The key set of a per-host message dict. -/
def dictKeys (d : MsgDict) : List String :=
  d.map Prod.fst

example : strContains "abc def" "c d" = true := by decide
example : strContains "abc" "" = true := by decide
example : pyStrip "  ab c\n" = "ab c" := by decide
example : pyStripChars ['[', ']'] "[DRIFT]" = "DRIFT" := by decide
example : pyStartsWith "[2024" "[" = true := by decide

example : pySplit "a] b] c" "]" = ["a", " b", " c"] := by decide
example : pySplit2 "a] b] c] d" "] " = ["a", "b", "c] d"] := by decide
example : pySplit2 "[ts] [OK]" "] " = ["[ts", "[OK]"] := by decide
example : pySplit2 "nosep" "] " = ["nosep"] := by decide
example : pyReplace "Host: web1" "Host: " = "web1" := by decide
example : pySplit "✅ FIXED: /etc/app.conf" "FIXED: " = ["✅ ", "/etc/app.conf"] := by decide

example : parseTimestamp "2024-05-01 10:00:00" =
    some ⟨2024, 5, 1, 10, 0, 0⟩ := by decide
example : parseTimestamp "2024-13-01 10:00:00" = none := by decide
example : parseTimestamp "2024-02-30 10:00:00" = none := by decide
example : parseTimestamp "2024-05-01 10:00" = none := by decide
example : parseTimestamp "garbage" = none := by decide
example : parseTimestamp "2024-05-01 10:00:00 " = none := by decide
example : parseTimestamp "2024-2-9 3:4:5" = some ⟨2024, 2, 9, 3, 4, 5⟩ := by decide

example :
    summarize [("app01", ["⚠️  Drift detected in /etc/app.conf"])]
      [("app01", ["✅ FIXED: /etc/app.conf"])] "app01" ⟨0, 0⟩ =
    ⟨"app01", [(.FIXED, ["✅ FIXED: /etc/app.conf"])]⟩ := by decide

example :
    summarize [("app01", ["⚠️  Drift detected in /etc/other.conf"])]
      [("app01", ["✅ FIXED: /etc/app.conf"])] "app01" ⟨0, 0⟩ =
    ⟨"app01", [(.FIXED, ["✅ FIXED: /etc/app.conf"]),
               (.DRIFTED, ["⚠️  Drift detected in /etc/other.conf"])]⟩ := by decide

example :
    summarize [("app01", ["⚠️  Drift detected in /etc/app.conf"])]
      [("app01", ["✅ FIXED: /etc/app.conf"])] "app01" ⟨1, 0⟩ =
    ⟨"app01", [(.UNREACHABLE, [])]⟩ := by decide

example :
    parse_ansible_json (some ⟨[], [⟨[⟨"Display Diff", [⟨"h1", false, "m"⟩]⟩]⟩]⟩) =
    .keyError "h1" := by decide

example :
    parse_audit_log ⟨2024, 1, 1, 0, 0, 0⟩
      ["[2024-05-01 10:00:00] [OK] Host: web1 | File: /etc/app.conf | Type: content",
       "[2024-05-01 10:00:01] [DRIFT] Host: web1 | File: /etc/app.conf | Type: content",
       "[2024-05-01 10:00:02] [OK] Host: web1 | File: /etc/app.conf | Type: content"] =
    [⟨"web1", "DRIFT", ["File: /etc/app.conf (Type: content)"]⟩] := by decide

example :
    parse_audit_log ⟨2024, 1, 1, 0, 0, 0⟩
      ["[2024-05-01 10:00:00] [FIXED] Host: web1 | File: /etc/app.conf | Type: content",
       "[2024-05-01 10:00:01] [DRIFT] Host: web1 | File: /etc/app.conf | Type: content"] =
    [⟨"web1", "DRIFT", ["File: /etc/app.conf (FIXED)",
                        "File: /etc/app.conf (Type: content)"]⟩] := by decide

example :
    parse_audit_log ⟨2025, 1, 1, 0, 0, 0⟩
      ["[2024-05-01 10:00:00] [DRIFT] Host: web1 | File: /etc/app.conf | Type: content"] =
    [] := by decide

example :
    parse_audit_log ⟨2024, 1, 1, 0, 0, 0⟩
      ["[2024-05-01 10:00:00] [DRIFT] File: /etc/app.conf | Type: vault_error"] =
    [⟨"Unknown", "DRIFT",
      ["File: /etc/app.conf (Type: vault_error)" ++ vaultErrorNote]⟩] := by decide

/-- Helper: an unreachable host reduces to a single UNREACHABLE section. -/
theorem summarize_unreachable (d f : MsgDict) (host : String) (st : Stat)
    (hu : 0 < st.unreachable) :
    summarize d f host st = ⟨host, [(.UNREACHABLE, [])]⟩ := by
  simp [summarize, hostSections, hu]

/-- Helper: a failed (but reachable) host reduces to a single FAILED section. -/
theorem summarize_failed (d f : MsgDict) (host : String) (st : Stat)
    (hu : st.unreachable = 0) (hf : 0 < st.failures) :
    summarize d f host st = ⟨host, [(.FAILED, [])]⟩ := by
  simp [summarize, hostSections, hu, hf]

/-- Helper: with a non-empty fix list (host reachable, no failures) the
details are the fix messages followed by the unsuppressed drift messages. -/
theorem summarize_details_fixes (d f : MsgDict) (host : String) (st : Stat)
    (hu : st.unreachable = 0) (hf : st.failures = 0) (hfx : dictGet f host ≠ []) :
    (summarize d f host st).details =
      dictGet f host ++
        remainingDrifts (extractFixedFiles (dictGet f host)) (dictGet d host) := by
  have h3 : ¬ (dictGet d host = [] ∧ dictGet f host = []) := fun h => hfx h.2
  simp only [summarize, hostSections, ReportEntry.details, hu, hf,
    Nat.lt_irrefl, if_false, if_neg h3, if_neg hfx]
  cases hrem : remainingDrifts (extractFixedFiles (dictGet f host)) (dictGet d host) with
  | nil => simp
  | cons a l => simp

/-- Claim C1: for every structured run payload and every host listed in
stats, an unreachable counter above zero forces state UNREACHABLE regardless
of the collected drift or fix messages; otherwise a failures counter above
zero forces state FAILED. -/
theorem C1_unreachable_failed_precedence :
    (∀ (d f : MsgDict) (host : String) (st : Stat), 0 < st.unreachable →
      summarize d f host st = ⟨host, [(.UNREACHABLE, [])]⟩) ∧
    (∀ (d f : MsgDict) (host : String) (st : Stat),
      st.unreachable = 0 → 0 < st.failures →
      summarize d f host st = ⟨host, [(.FAILED, [])]⟩) ∧
    (∀ (p : Payload) (entries : List ReportEntry) (host : String) (st : Stat),
      parse_ansible_json (some p) = .report entries → (host, st) ∈ p.stats →
      (0 < st.unreachable → ReportEntry.mk host [(.UNREACHABLE, [])] ∈ entries) ∧
      (st.unreachable = 0 → 0 < st.failures →
        ReportEntry.mk host [(.FAILED, [])] ∈ entries)) := by
  refine ⟨summarize_unreachable, summarize_failed, ?_⟩
  intro p entries host st hparse hmem
  simp only [parse_ansible_json] at hparse
  cases hc : collect p with
  | error h => rw [hc] at hparse; exact absurd hparse (by simp)
  | ok df =>
    rw [hc] at hparse
    have hent : entries = p.stats.map (fun hs => summarize df.1 df.2 hs.1 hs.2) := by
      cases hparse; rfl
    subst hent
    constructor
    · intro hu
      have hm := List.mem_map_of_mem (fun hs => summarize df.1 df.2 hs.1 hs.2) hmem
      simp only [] at hm
      rwa [summarize_unreachable df.1 df.2 host st hu] at hm
    · intro hu hf
      have hm := List.mem_map_of_mem (fun hs => summarize df.1 df.2 hs.1 hs.2) hmem
      simp only [] at hm
      rwa [summarize_failed df.1 df.2 host st hu hf] at hm

/-- Witness for C1 at a concrete payload: one unreachable host and one
failed host. -/
theorem C1_witness :
    summarize [] [] "db01" ⟨2, 1⟩ = ⟨"db01", [(.UNREACHABLE, [])]⟩ ∧
    summarize [] [] "web01" ⟨0, 3⟩ = ⟨"web01", [(.FAILED, [])]⟩ :=
  ⟨C1_unreachable_failed_precedence.1 [] [] "db01" ⟨2, 1⟩ (by decide),
   C1_unreachable_failed_precedence.2.1 [] [] "web01" ⟨0, 3⟩ rfl (by decide)⟩

/-- Helper: with no fix messages there are no fixed-file paths, so every
drift message survives the suppression filter. -/
theorem remainingDrifts_no_fixes (drifts : List String) :
    remainingDrifts (extractFixedFiles []) drifts = drifts := by
  simp [extractFixedFiles, remainingDrifts, isFixedDrift]

/-- Helper: membership in the unsuppressed drift list is exactly the absence
of a fixed-file path occurring as a substring. -/
theorem mem_remainingDrifts (fixedFiles drifts : List String) (m : String)
    (hm : m ∈ drifts) :
    (m ∈ remainingDrifts fixedFiles drifts ↔
      ¬ ∃ ffile ∈ fixedFiles, strContains m ffile = true) := by
  simp [remainingDrifts, isFixedDrift, List.mem_filter, hm]

/-- Claim C2: for a host that is neither UNREACHABLE nor FAILED and has a
non-empty fix list, a drift message is dropped from the final details exactly
when some fixed-file path (the text the source splits off after the
`"FIXED: "` marker, stripped of whitespace) is a substring of it; in
particular one drift message referencing `/etc/app.conf` plus the fix message
`"✅ FIXED: /etc/app.conf"` reduce to state FIXED with the drift message
absent from the details. -/
theorem C2_fix_suppression :
    (∀ (d f : MsgDict) (host : String) (st : Stat),
      st.unreachable = 0 → st.failures = 0 → dictGet f host ≠ [] →
      (summarize d f host st).details =
        dictGet f host ++
          remainingDrifts (extractFixedFiles (dictGet f host)) (dictGet d host)) ∧
    (∀ (fixedFiles drifts : List String) (m : String), m ∈ drifts →
      (m ∈ remainingDrifts fixedFiles drifts ↔
        ¬ ∃ ffile ∈ fixedFiles, strContains m ffile = true)) ∧
    (summarize [("app01", ["⚠️  Drift detected in /etc/app.conf"])]
        [("app01", ["✅ FIXED: /etc/app.conf"])] "app01" ⟨0, 0⟩ =
      ⟨"app01", [(.FIXED, ["✅ FIXED: /etc/app.conf"])]⟩) :=
  ⟨summarize_details_fixes, mem_remainingDrifts, by decide⟩

/-- Witness for C2: the suppression equation instantiated at the concrete
`/etc/app.conf` host of the claim. -/
theorem C2_witness :
    (summarize [("app01", ["⚠️  Drift detected in /etc/app.conf"])]
        [("app01", ["✅ FIXED: /etc/app.conf"])] "app01" ⟨0, 0⟩).details =
      dictGet [("app01", ["✅ FIXED: /etc/app.conf"])] "app01" ++
        remainingDrifts
          (extractFixedFiles (dictGet [("app01", ["✅ FIXED: /etc/app.conf"])] "app01"))
          (dictGet [("app01", ["⚠️  Drift detected in /etc/app.conf"])] "app01") :=
  C2_fix_suppression.1 [("app01", ["⚠️  Drift detected in /etc/app.conf"])]
    [("app01", ["✅ FIXED: /etc/app.conf"])] "app01" ⟨0, 0⟩ rfl rfl (by decide)

/-- Claim C4: for a reachable, non-failed host the details list the fix
messages first and then the unsuppressed drift messages in scan order; a
DRIFTED host's details are exactly its drift list; COMPLIANT, FAILED and
UNREACHABLE hosts have empty details; a drift message for `/etc/other.conf`
survives next to a fix message for a different file. -/
theorem C4_details_order :
    (∀ (d f : MsgDict) (host : String) (st : Stat),
      st.unreachable = 0 → st.failures = 0 → dictGet f host ≠ [] →
      (summarize d f host st).details =
        dictGet f host ++
          remainingDrifts (extractFixedFiles (dictGet f host)) (dictGet d host)) ∧
    (∀ (d f : MsgDict) (host : String) (st : Stat),
      st.unreachable = 0 → st.failures = 0 → dictGet f host = [] →
      dictGet d host ≠ [] →
      summarize d f host st = ⟨host, [(.DRIFTED, dictGet d host)]⟩) ∧
    (∀ (d f : MsgDict) (host : String) (st : Stat),
      st.unreachable = 0 → st.failures = 0 → dictGet f host = [] →
      dictGet d host = [] →
      summarize d f host st = ⟨host, [(.COMPLIANT, [])]⟩) ∧
    (∀ (d f : MsgDict) (host : String) (st : Stat), 0 < st.unreachable →
      (summarize d f host st).details = []) ∧
    (∀ (d f : MsgDict) (host : String) (st : Stat),
      st.unreachable = 0 → 0 < st.failures →
      (summarize d f host st).details = []) ∧
    (summarize [("app01", ["⚠️  Drift detected in /etc/other.conf"])]
        [("app01", ["✅ FIXED: /etc/app.conf"])] "app01" ⟨0, 0⟩ =
      ⟨"app01", [(.FIXED, ["✅ FIXED: /etc/app.conf"]),
                 (.DRIFTED, ["⚠️  Drift detected in /etc/other.conf"])]⟩) := by
  refine ⟨summarize_details_fixes, ?_, ?_, ?_, ?_, by decide⟩
  · intro d f host st hu hf hfx hd
    cases hcase : dictGet d host with
    | nil => exact absurd hcase hd
    | cons a l =>
      simp [summarize, hostSections, hu, hf, hfx, hcase, remainingDrifts_no_fixes]
  · intro d f host st hu hf hfx hd
    simp [summarize, hostSections, hu, hf, hfx, hd]
  · intro d f host st hu
    rw [summarize_unreachable d f host st hu]
    rfl
  · intro d f host st hu hf
    rw [summarize_failed d f host st hu hf]
    rfl

/-- Witness for C4 at the concrete hosts of the claim. -/
theorem C4_witness :
    summarize [("app01", ["⚠️  Drift detected in /etc/other.conf"])] [] "app01" ⟨0, 0⟩ =
      ⟨"app01", [(.DRIFTED, ["⚠️  Drift detected in /etc/other.conf"])]⟩ ∧
    summarize [] [] "app02" ⟨0, 0⟩ = ⟨"app02", [(.COMPLIANT, [])]⟩ :=
  ⟨C4_details_order.2.1 [("app01", ["⚠️  Drift detected in /etc/other.conf"])] []
      "app01" ⟨0, 0⟩ rfl rfl (by decide) (by decide),
   C4_details_order.2.2.1 [] [] "app02" ⟨0, 0⟩ rfl rfl (by decide) (by decide)⟩

/-- Helper: whenever a vault setup happens, the script content written is
the fixed relay text. -/
theorem setup_script_const (a p : String) (r : String × String)
    (h : setup_vault_password (some a) p = some r) : r.1 = vaultScript := by
  unfold setup_vault_password at h
  by_cases ha : a = ""
  · simp [ha] at h
  · simp only [if_neg ha] at h
    cases h
    rfl

/-- Claim C9: the prepare-relay operation writes byte-for-byte identical
content for every pair of secret values — the transient script is the fixed
text echoing `SENTINEL_VAULT_PASS` and does not depend on the secret — while
the secret value itself travels only through the environment entry. -/
theorem C9_secret_constant_script :
    (∀ (a1 p1 a2 p2 : String) (r1 r2 : String × String),
      setup_vault_password (some a1) p1 = some r1 →
      setup_vault_password (some a2) p2 = some r2 → r1.1 = r2.1) ∧
    (∀ (a p : String) (r : String × String),
      setup_vault_password (some a) p = some r → r.1 = vaultScript) ∧
    (∀ (a p : String) (r : String × String),
      setup_vault_password (some a) p = some r → r.2 ≠ "" →
      sentinelEnv (setup_vault_password (some a) p) = some r.2) := by
  refine ⟨?_, setup_script_const, ?_⟩
  · intro a1 p1 a2 p2 r1 r2 h1 h2
    rw [setup_script_const a1 p1 r1 h1, setup_script_const a2 p2 r2 h2]
  · intro a p r h hne
    rw [h]
    simp [sentinelEnv, hne]

/-- Witness for C9 at two concrete secrets: both invocations write the same
fixed script, and the secret reaches only the environment entry. -/
theorem C9_witness :
    ((vaultScript, "hunter2") : String × String).1 =
      ((vaultScript, "s3cr3t") : String × String).1 ∧
    sentinelEnv (setup_vault_password (some "hunter2") "") = some "hunter2" :=
  ⟨C9_secret_constant_script.1 "hunter2" "" "s3cr3t" "" (vaultScript, "hunter2")
      (vaultScript, "s3cr3t") (by decide) (by decide),
   C9_secret_constant_script.2.2 "hunter2" "" (vaultScript, "hunter2")
      (by decide) (by decide)⟩

/-- Helper: a line without a parseable bracketed timestamp is skipped. -/
theorem processLine_skip_none (cutoff : DateTime) (r : List HostEntry)
    (line : String) (h : lineTimestamp line = none) :
    processLine cutoff r line = r := by
  simp [processLine, lineRecord, h]

/-- Helper: a line whose timestamp is strictly before the cutoff is skipped. -/
theorem processLine_skip_early (cutoff : DateTime) (r : List HostEntry)
    (line : String) (ts : DateTime) (h : lineTimestamp line = some ts)
    (hlt : ts.toKey < cutoff.toKey) : processLine cutoff r line = r := by
  simp [processLine, lineRecord, h, hlt]

/-- Helper: when every line of the log is pre-cutoff (or has no parseable
timestamp), the fold leaves any starting report unchanged. -/
theorem foldl_skip_all (cutoff : DateTime) (lines : List String)
    (h : ∀ l ∈ lines, ∀ ts, lineTimestamp l = some ts →
      ts.toKey < cutoff.toKey) :
    ∀ r, List.foldl (processLine cutoff) r lines = r := by
  induction lines with
  | nil => intro r; rfl
  | cons l rest ih =>
    intro r
    have hskip : processLine cutoff r l = r := by
      cases hts : lineTimestamp l with
      | none => exact processLine_skip_none cutoff r l hts
      | some ts =>
        exact processLine_skip_early cutoff r l ts hts
          (h l (by simp) ts hts)
    rw [List.foldl_cons, hskip]
    exact ih (fun l2 hl2 ts hts => h l2 (by simp [hl2]) ts hts) r

/-- Claim C5: History Reducer output is not influenced by records strictly
before the cutoff; records at or after the cutoff are applied in the order
encountered; a log whose records are all pre-cutoff yields a report with no
hosts. -/
theorem C5_cutoff_filtering :
    (∀ (cutoff : DateTime) (pre post : List String) (l : String) (ts : DateTime),
      lineTimestamp l = some ts → ts.toKey < cutoff.toKey →
      parse_audit_log cutoff (pre ++ l :: post) =
        parse_audit_log cutoff (pre ++ post)) ∧
    (∀ (cutoff : DateTime) (r : List HostEntry) (l : String) (ts : DateTime),
      lineTimestamp l = some ts → cutoff.toKey ≤ ts.toKey →
      processLine cutoff r l =
        match lineContent l with
        | none => r
        | some rec => applyRecord r rec.1 rec.2.1 rec.2.2.1 rec.2.2.2) ∧
    (∀ (cutoff : DateTime) (lines : List String),
      (∀ l ∈ lines, ∀ ts, lineTimestamp l = some ts →
        ts.toKey < cutoff.toKey) →
      parse_audit_log cutoff lines = []) := by
  refine ⟨?_, ?_, ?_⟩
  · intro cutoff pre post l ts hts hlt
    unfold parse_audit_log
    rw [List.foldl_append, List.foldl_append, List.foldl_cons,
      processLine_skip_early cutoff _ l ts hts hlt]
  · intro cutoff r l ts hts hge
    have hnlt : ¬ ts.toKey < cutoff.toKey := Nat.not_lt.mpr hge
    simp only [processLine, lineRecord, hts, if_neg hnlt]
  · intro cutoff lines h
    exact foldl_skip_all cutoff lines h []

/-- Witness for C5: a concrete drift record dated 2024 is dropped under a
2025 cutoff, and the same record is applied under an earlier cutoff. -/
theorem C5_witness :
    parse_audit_log ⟨2025, 1, 1, 0, 0, 0⟩
      ([] ++ "[2024-05-01 10:00:00] [DRIFT] Host: web1 | File: /etc/app.conf | Type: content" :: []) =
      parse_audit_log ⟨2025, 1, 1, 0, 0, 0⟩ ([] ++ []) ∧
    parse_audit_log ⟨2025, 1, 1, 0, 0, 0⟩
      ["[2024-05-01 10:00:00] [DRIFT] Host: web1 | File: /etc/app.conf | Type: content"] = [] :=
  ⟨C5_cutoff_filtering.1 ⟨2025, 1, 1, 0, 0, 0⟩ [] []
      "[2024-05-01 10:00:00] [DRIFT] Host: web1 | File: /etc/app.conf | Type: content"
      ⟨2024, 5, 1, 10, 0, 0⟩ (by decide) (by decide),
   C5_cutoff_filtering.2.2 ⟨2025, 1, 1, 0, 0, 0⟩
      ["[2024-05-01 10:00:00] [DRIFT] Host: web1 | File: /etc/app.conf | Type: content"]
      (by decide)⟩

/-- Helper: a successful search in a prefix also succeeds on the whole list. -/
theorem find_append_some (p : HostEntry → Bool) (l1 l2 : List HostEntry)
    (a : HostEntry) (h : l1.find? p = some a) : (l1 ++ l2).find? p = some a := by
  induction l1 with
  | nil => simp [List.find?] at h
  | cons x xs ih =>
    cases hx : p x with
    | true =>
      rw [List.find?_cons_of_pos _ hx] at h
      rw [List.cons_append, List.find?_cons_of_pos _ hx]
      exact h
    | false =>
      rw [List.find?_cons_of_neg _ (by simp [hx])] at h
      rw [List.cons_append, List.find?_cons_of_neg _ (by simp [hx])]
      exact ih h

/-- Helper: a record whose status is neither `"DRIFT"` nor `"FIXED"` leaves
the status of every already-present host unchanged. -/
theorem statusOf_applyRecord_other (report : List HostEntry)
    (status host filePath driftType h st : String)
    (hnd : status ≠ "DRIFT") (hnf : status ≠ "FIXED")
    (hst : statusOf report h = some st) :
    statusOf (applyRecord report status host filePath driftType) h = some st := by
  unfold applyRecord
  rw [if_neg hnd, if_neg hnf]
  by_cases hany : report.any (fun e => e.host = host)
  · rw [if_pos hany]; exact hst
  · rw [if_neg hany]
    unfold statusOf at hst ⊢
    cases hfind : report.find? (fun e => e.host = h) with
    | none => rw [hfind] at hst; simp at hst
    | some e =>
      rw [hfind] at hst
      rw [find_append_some _ _ _ _ hfind]
      exact hst

/-- Helper: after ensuring the host entry exists, some entry matches. -/
theorem ensure_any (report : List HostEntry) (host : String) :
    ((if report.any (fun e => e.host = host) then report
      else report ++ [⟨host, "OK", []⟩]).any (fun e => e.host = host)) = true := by
  by_cases h : report.any (fun e => e.host = host) <;> simp [h]

/-- Helper: rewriting the status of every entry of a given host makes the
looked-up status that new status, provided the host has an entry. -/
theorem statusOf_map_update (l : List HostEntry) (host newStatus : String)
    (g : HostEntry → List String)
    (h : l.any (fun e => e.host = host) = true) :
    statusOf (l.map (fun e =>
      if e.host = host then HostEntry.mk e.host newStatus (g e) else e)) host =
      some newStatus := by
  induction l with
  | nil => simp at h
  | cons x xs ih =>
    by_cases hx : x.host = host
    · simp [statusOf, hx]
    · have hxs : xs.any (fun e => e.host = host) = true := by
        simpa [hx] using h
      have ihx := ih hxs
      unfold statusOf at ihx ⊢
      rw [List.map_cons, if_neg hx,
        List.find?_cons_of_neg _ (by simp [hx])]
      exact ihx

/-- Claim C7: in the History Reducer an OK record never downgrades an
existing DRIFTED or FIXED state (indeed it never changes any existing
host's status), and a host with records OK, DRIFT, OK ends the pass in
state DRIFT. -/
theorem C7_ok_never_downgrades :
    (∀ (report : List HostEntry) (host filePath driftType h st : String),
      statusOf report h = some st →
      statusOf (applyRecord report "OK" host filePath driftType) h = some st) ∧
    (parse_audit_log ⟨2024, 1, 1, 0, 0, 0⟩
      ["[2024-05-01 10:00:00] [OK] Host: web1 | File: /etc/app.conf | Type: content",
       "[2024-05-01 10:00:01] [DRIFT] Host: web1 | File: /etc/app.conf | Type: content",
       "[2024-05-01 10:00:02] [OK] Host: web1 | File: /etc/app.conf | Type: content"] =
      [⟨"web1", "DRIFT", ["File: /etc/app.conf (Type: content)"]⟩]) :=
  ⟨fun report host filePath driftType h st hst =>
    statusOf_applyRecord_other report "OK" host filePath driftType h st
      (by decide) (by decide) hst,
   by decide⟩

/-- Witness for C7: the OK record dated 10:00:02 applied to the concrete
post-drift report leaves the DRIFT status in place. -/
theorem C7_witness :
    statusOf (applyRecord [⟨"web1", "DRIFT", ["File: /etc/app.conf (Type: content)"]⟩]
      "OK" "web1" "/etc/app.conf" "content") "web1" = some "DRIFT" :=
  C7_ok_never_downgrades.1 [⟨"web1", "DRIFT", ["File: /etc/app.conf (Type: content)"]⟩]
    "web1" "/etc/app.conf" "content" "web1" "DRIFT" (by decide)

/-- Helper: a DRIFT record always leaves its host's status at `"DRIFT"`,
whatever the previous status was. -/
theorem statusOf_applyRecord_drift (report : List HostEntry)
    (host filePath driftType : String) :
    statusOf (applyRecord report "DRIFT" host filePath driftType) host =
      some "DRIFT" := by
  unfold applyRecord
  rw [if_pos rfl]
  exact statusOf_map_update _ host "DRIFT"
    (fun e => e.messages ++
      [("File: " ++ filePath ++ " (Type: " ++ driftType ++ ")") ++
        (if driftType = "vault_error" then vaultErrorNote else "")])
    (ensure_any report host)

/-- Helper: a FIXED record always leaves its host's status at `"FIXED"`,
whatever the previous status was. -/
theorem statusOf_applyRecord_fixed (report : List HostEntry)
    (host filePath driftType : String) :
    statusOf (applyRecord report "FIXED" host filePath driftType) host =
      some "FIXED" := by
  unfold applyRecord
  rw [if_neg (by decide : ¬ ("FIXED" : String) = "DRIFT"), if_pos rfl]
  exact statusOf_map_update _ host "FIXED"
    (fun e => e.messages ++ ["File: " ++ filePath ++ " (FIXED)"])
    (ensure_any report host)

/-- Claim C3 counterexample: in the History Reducer, a DRIFT record arriving
after a FIXED record for the same host does change the state back to DRIFT.
After the FIXED record alone the host is FIXED; appending the later DRIFT
record downgrades it, contradicting the claimed
UNREACHABLE > FAILED > FIXED > DRIFTED > COMPLIANT no-downgrade order. -/
theorem C3_counterexample :
    parse_audit_log ⟨2024, 1, 1, 0, 0, 0⟩
      ["[2024-05-01 10:00:00] [FIXED] Host: web1 | File: /etc/app.conf | Type: content"] =
      [⟨"web1", "FIXED", ["File: /etc/app.conf (FIXED)"]⟩] ∧
    parse_audit_log ⟨2024, 1, 1, 0, 0, 0⟩
      ["[2024-05-01 10:00:00] [FIXED] Host: web1 | File: /etc/app.conf | Type: content",
       "[2024-05-01 10:00:01] [DRIFT] Host: web1 | File: /etc/app.conf | Type: content"] =
      [⟨"web1", "DRIFT", ["File: /etc/app.conf (FIXED)",
                          "File: /etc/app.conf (Type: content)"]⟩] := by
  constructor
  · decide
  · decide

/-- Claim C3 as amended: in the Run-Report Reducer, UNREACHABLE and FAILED
take strict precedence and are never affected by drift or fix messages; in
the History Reducer an OK record never downgrades an existing state, but
DRIFT and FIXED records each unconditionally overwrite the host's previous
state, so the last DRIFT-or-FIXED record wins rather than a precedence
order. -/
theorem C3_amended_precedence :
    (∀ (d f : MsgDict) (host : String) (st : Stat), 0 < st.unreachable →
      summarize d f host st = ⟨host, [(.UNREACHABLE, [])]⟩) ∧
    (∀ (d f : MsgDict) (host : String) (st : Stat),
      st.unreachable = 0 → 0 < st.failures →
      summarize d f host st = ⟨host, [(.FAILED, [])]⟩) ∧
    (∀ (report : List HostEntry) (host filePath driftType h st : String),
      statusOf report h = some st →
      statusOf (applyRecord report "OK" host filePath driftType) h = some st) ∧
    (∀ (report : List HostEntry) (host filePath driftType : String),
      statusOf (applyRecord report "DRIFT" host filePath driftType) host =
        some "DRIFT") ∧
    (∀ (report : List HostEntry) (host filePath driftType : String),
      statusOf (applyRecord report "FIXED" host filePath driftType) host =
        some "FIXED") :=
  ⟨summarize_unreachable, summarize_failed,
   fun report host filePath driftType h st hst =>
     statusOf_applyRecord_other report "OK" host filePath driftType h st
       (by decide) (by decide) hst,
   statusOf_applyRecord_drift, statusOf_applyRecord_fixed⟩

/-- Witness for the amended C3 at concrete inputs: an unreachable host with
pending drift and fix messages stays UNREACHABLE, and a FIXED record applied
after a DRIFT overwrites the status. -/
theorem C3_amended_witness :
    summarize [("h1", ["drift"])] [("h1", ["✅ FIXED: /x"])] "h1" ⟨1, 0⟩ =
      ⟨"h1", [(.UNREACHABLE, [])]⟩ ∧
    statusOf (applyRecord [⟨"h1", "DRIFT", ["m"]⟩] "FIXED" "h1" "/x" "content")
      "h1" = some "FIXED" :=
  ⟨C3_amended_precedence.1 [("h1", ["drift"])] [("h1", ["✅ FIXED: /x"])] "h1"
      ⟨1, 0⟩ (by decide),
   C3_amended_precedence.2.2.2.2 [⟨"h1", "DRIFT", ["m"]⟩] "h1" "/x" "content"⟩

/-- Helper: a detail part without the `"Host: "` marker leaves the host
field untouched. -/
theorem updateFields_fst (acc : String × String × String) (part : String)
    (h : pyStartsWith (pyStrip part) "Host: " = false) :
    (updateFields acc part).1 = acc.1 := by
  unfold updateFields
  simp only [h, Bool.false_eq_true, if_false]
  split <;> first | rfl | (split <;> rfl)

/-- Helper: a detail part without the `"File: "` marker leaves the file
field untouched. -/
theorem updateFields_file (acc : String × String × String) (part : String)
    (h : pyStartsWith (pyStrip part) "File: " = false) :
    (updateFields acc part).2.1 = acc.2.1 := by
  unfold updateFields
  simp only [h, Bool.false_eq_true, if_false]
  split <;> first | rfl | (split <;> rfl)

/-- Helper: a detail part without the `"Type: "` marker leaves the type
field untouched. -/
theorem updateFields_type (acc : String × String × String) (part : String)
    (h : pyStartsWith (pyStrip part) "Type: " = false) :
    (updateFields acc part).2.2 = acc.2.2 := by
  unfold updateFields
  simp only [h, Bool.false_eq_true, if_false]
  split <;> first | rfl | (split <;> rfl)

/-- Helper: folding detail parts none of which carries the `"Host: "` marker
preserves the host field of the accumulator. -/
theorem foldl_fields_host (parts : List String) :
    ∀ acc : String × String × String,
      (∀ part ∈ parts, pyStartsWith (pyStrip part) "Host: " = false) →
      (List.foldl updateFields acc parts).1 = acc.1 := by
  induction parts with
  | nil => intro acc _; rfl
  | cons p ps ih =>
    intro acc h
    rw [List.foldl_cons, ih (updateFields acc p) (fun q hq => h q (by simp [hq]))]
    exact updateFields_fst acc p (h p (by simp))

/-- Helper: folding detail parts none of which carries the `"File: "` marker
preserves the file field of the accumulator. -/
theorem foldl_fields_file (parts : List String) :
    ∀ acc : String × String × String,
      (∀ part ∈ parts, pyStartsWith (pyStrip part) "File: " = false) →
      (List.foldl updateFields acc parts).2.1 = acc.2.1 := by
  induction parts with
  | nil => intro acc _; rfl
  | cons p ps ih =>
    intro acc h
    rw [List.foldl_cons, ih (updateFields acc p) (fun q hq => h q (by simp [hq]))]
    exact updateFields_file acc p (h p (by simp))

/-- Helper: folding detail parts none of which carries the `"Type: "` marker
preserves the type field of the accumulator. -/
theorem foldl_fields_type (parts : List String) :
    ∀ acc : String × String × String,
      (∀ part ∈ parts, pyStartsWith (pyStrip part) "Type: " = false) →
      (List.foldl updateFields acc parts).2.2 = acc.2.2 := by
  induction parts with
  | nil => intro acc _; rfl
  | cons p ps ih =>
    intro acc h
    rw [List.foldl_cons, ih (updateFields acc p) (fun q hq => h q (by simp [hq]))]
    exact updateFields_type acc p (h p (by simp))

/-- Helper: a stripped line that does not begin with the record marker has
no timestamp, hence is skipped. -/
theorem lineTimestamp_no_marker (line : String)
    (h : pyStartsWith (pyStrip line) "[" = false) :
    lineTimestamp line = none := by
  simp [lineTimestamp, h]

/-- Helper: the fields a recognized record carries when its detail section
lacks the respective markers are the `"Unknown"` placeholders. -/
theorem lineContent_defaults (line status host filePath driftType : String)
    (h : lineContent line = some (status, host, filePath, driftType)) :
    ((∀ part ∈ pySplit (lineDetails line) " | ",
        pyStartsWith (pyStrip part) "Host: " = false) → host = "Unknown") ∧
    ((∀ part ∈ pySplit (lineDetails line) " | ",
        pyStartsWith (pyStrip part) "File: " = false) → filePath = "Unknown") ∧
    ((∀ part ∈ pySplit (lineDetails line) " | ",
        pyStartsWith (pyStrip part) "Type: " = false) → driftType = "Unknown") := by
  unfold lineContent at h
  by_cases hlen : (pySplit2 (pyStrip line) "] ").length < 2
  · simp [hlen] at h
  · simp only [if_neg hlen, Option.some.injEq, Prod.mk.injEq] at h
    refine ⟨?_, ?_, ?_⟩
    · intro hnone
      rw [← h.2.1]
      exact foldl_fields_host _ _ hnone
    · intro hnone
      rw [← h.2.2.1]
      exact foldl_fields_file _ _ hnone
    · intro hnone
      rw [← h.2.2.2]
      exact foldl_fields_type _ _ hnone

/-- Claim C8: the History Reducer never fails on content errors — lines
without the record marker or without a parseable bracketed timestamp are
silently skipped and contribute no host entry, and a recognized record whose
detail section lacks the `Host`, `File` or `Type` marker carries the literal
`"Unknown"` placeholder for the missing field. -/
theorem C8_content_error_tolerance :
    (∀ (cutoff : DateTime) (r : List HostEntry) (line : String),
      pyStartsWith (pyStrip line) "[" = false →
      processLine cutoff r line = r) ∧
    (∀ (cutoff : DateTime) (r : List HostEntry) (line : String),
      lineTimestamp line = none → processLine cutoff r line = r) ∧
    (∀ (line status host filePath driftType : String),
      lineContent line = some (status, host, filePath, driftType) →
      ((∀ part ∈ pySplit (lineDetails line) " | ",
          pyStartsWith (pyStrip part) "Host: " = false) → host = "Unknown") ∧
      ((∀ part ∈ pySplit (lineDetails line) " | ",
          pyStartsWith (pyStrip part) "File: " = false) → filePath = "Unknown") ∧
      ((∀ part ∈ pySplit (lineDetails line) " | ",
          pyStartsWith (pyStrip part) "Type: " = false) → driftType = "Unknown")) :=
  ⟨fun cutoff r line h =>
    processLine_skip_none cutoff r line (lineTimestamp_no_marker line h),
   processLine_skip_none, lineContent_defaults⟩

/-- Witness for C8 at concrete malformed lines: a marker-free line and an
unparseable-timestamp line are skipped, and a record with no `Host:` part
reports host `"Unknown"`. -/
theorem C8_witness :
    processLine ⟨2024, 1, 1, 0, 0, 0⟩ [] "TASK [Display Diff] ****" = [] ∧
    processLine ⟨2024, 1, 1, 0, 0, 0⟩ [] "[not a date] [DRIFT] Host: w" = [] ∧
    "Unknown" = "Unknown" :=
  ⟨C8_content_error_tolerance.1 ⟨2024, 1, 1, 0, 0, 0⟩ [] "TASK [Display Diff] ****"
      (by decide),
   C8_content_error_tolerance.2.1 ⟨2024, 1, 1, 0, 0, 0⟩ [] "[not a date] [DRIFT] Host: w"
      (by decide),
   (C8_content_error_tolerance.2.2 "[2024-05-01 10:00:00] [DRIFT] File: /a | Type: b"
      "DRIFT" "Unknown" "/a" "b" (by decide)).1 (by decide)⟩

/-- Claim C6 counterexample: for the concrete non-JSON input
`"definitely not json"` with exit code 0, the reducer signals the parse
failure and emits no per-host output, but the raw unparsed output is NOT
surfaced — the only printed line is the fixed failure message, and the raw
input is not a substring of it. -/
theorem C6_counterexample :
    parse_ansible_json none = .parseFailure ∧
    quietModeLines 0 "definitely not json" "" none =
      ["❌ Failed to parse Ansible JSON output."] ∧
    strContains "❌ Failed to parse Ansible JSON output." "definitely not json" =
      false := by
  refine ⟨rfl, by decide, by decide⟩

/-- Claim C6 as amended: for input that is not valid JSON the reducer
signals a parse failure and produces no partial per-host output — the only
line printed is the fixed failure message; raw stderr and stdout are
surfaced by the caller instead of a summary only when the external process
exited non-zero and its stdout does not begin with a brace. -/
theorem C6_amended_parse_failure :
    parse_ansible_json none = .parseFailure ∧
    runOutputLines .parseFailure = parseFailureLines ∧
    (∀ (rc : Int) (stdout stderrText : String),
      rc = 0 ∨ pyStartsWith (pyStrip stdout) "\x7b" = true →
      quietModeLines rc stdout stderrText none = parseFailureLines) ∧
    (∀ (rc : Int) (stdout stderrText : String) (decoded : Option Payload),
      rc ≠ 0 → pyStartsWith (pyStrip stdout) "\x7b" = false →
      quietModeLines rc stdout stderrText decoded =
        ["❌ Ansible execution failed:", stderrText, stdout]) := by
  refine ⟨rfl, rfl, ?_, ?_⟩
  · intro rc stdout stderrText h
    unfold quietModeLines
    rw [if_neg]
    · rfl
    · intro hc
      cases h with
      | inl h0 => exact hc.1 h0
      | inr hsw => rw [hsw] at hc; exact hc.2 rfl
  · intro rc stdout stderrText decoded hrc hsw
    unfold quietModeLines
    rw [if_pos ⟨hrc, by simp [hsw]⟩]

/-- Witness for the amended C6 at concrete inputs on both branches. -/
theorem C6_amended_witness :
    quietModeLines 0 "oops not json" "" none = parseFailureLines ∧
    quietModeLines 2 "fatal: no inventory" "some stderr" none =
      ["❌ Ansible execution failed:", "some stderr", "fatal: no inventory"] :=
  ⟨C6_amended_parse_failure.2.2.1 0 "oops not json" "" (Or.inl rfl),
   C6_amended_parse_failure.2.2.2 2 "fatal: no inventory" "some stderr" none
      (by decide) (by decide)⟩

/-- Helper: appending a message for a host that has an entry succeeds and
keeps the key set. -/
theorem dictAppend_ok (d : MsgDict) (host msg : String)
    (h : host ∈ dictKeys d) :
    ∃ d2, dictAppend d host msg = .ok d2 ∧ dictKeys d2 = dictKeys d := by
  induction d with
  | nil => simp [dictKeys] at h
  | cons e rest ih =>
    by_cases he : e.1 = host
    · refine ⟨(e.1, e.2 ++ [msg]) :: rest, ?_, by simp [dictKeys]⟩
      cases e
      simp only [dictAppend, if_pos he]
    · have hr : host ∈ dictKeys rest := by
        simp only [dictKeys, List.map_cons, List.mem_cons] at h
        exact h.resolve_left (fun hh => he hh.symm)
      obtain ⟨d2, hd2, hk⟩ := ih hr
      refine ⟨(e.1, e.2) :: d2, ?_, by simp only [dictKeys, List.map_cons]; exact congrArg _ hk⟩
      cases e
      simp only [dictAppend, if_neg he, hd2, Except.map]

/-- Helper: collecting one task's host results succeeds and keeps the key
set when every non-skipped result names a host with an entry. -/
theorem processTaskHosts_ok (hosts : List HostResult) :
    ∀ d : MsgDict,
      (∀ r ∈ hosts, r.skipped = false → r.host ∈ dictKeys d) →
      ∃ d2, processTaskHosts d hosts = .ok d2 ∧ dictKeys d2 = dictKeys d := by
  induction hosts with
  | nil => intro d _; exact ⟨d, rfl, rfl⟩
  | cons r rest ih =>
    intro d h
    by_cases hs : r.skipped
    · obtain ⟨d2, hd2, hk⟩ := ih d (fun q hq hqs => h q (by simp [hq]) hqs)
      exact ⟨d2, by simpa [processTaskHosts, hs] using hd2, hk⟩
    · have hmem : r.host ∈ dictKeys d :=
        h r (by simp) (Bool.not_eq_true r.skipped ▸ by simpa using hs)
      obtain ⟨d1, hd1, hk1⟩ := dictAppend_ok d r.host r.msg hmem
      obtain ⟨d2, hd2, hk2⟩ := ih d1
        (fun q hq hqs => hk1 ▸ h q (by simp [hq]) hqs)
      refine ⟨d2, ?_, hk2.trans hk1⟩
      simp only [processTaskHosts, if_neg hs, hd1, hd2]

/-- Helper: processing one task succeeds and keeps both key sets when every
non-skipped result of a drift- or fix-named task names a covered host. -/
theorem processTask_ok (acc : MsgDict × MsgDict) (t : RTask)
    (h : t.name ∈ DRIFT_TASKS ∨ t.name ∈ FIX_TASKS →
      ∀ r ∈ t.hosts, r.skipped = false →
        r.host ∈ dictKeys acc.1 ∧ r.host ∈ dictKeys acc.2) :
    ∃ acc2, processTask acc t = .ok acc2 ∧
      dictKeys acc2.1 = dictKeys acc.1 ∧ dictKeys acc2.2 = dictKeys acc.2 := by
  unfold processTask
  by_cases hd : t.name ∈ DRIFT_TASKS
  · obtain ⟨d2, hd2, hk⟩ := processTaskHosts_ok t.hosts acc.1
      (fun r hr hrs => ((h (Or.inl hd)) r hr hrs).1)
    exact ⟨(d2, acc.2), by rw [if_pos hd, hd2], hk, rfl⟩
  · by_cases hf : t.name ∈ FIX_TASKS
    · obtain ⟨f2, hf2, hk⟩ := processTaskHosts_ok t.hosts acc.2
        (fun r hr hrs => ((h (Or.inr hf)) r hr hrs).2)
      exact ⟨(acc.1, f2), by rw [if_neg hd, if_pos hf, hf2], rfl, hk⟩
    · exact ⟨acc, by rw [if_neg hd, if_neg hf], rfl, rfl⟩

/-- Helper: folding a task list succeeds and keeps both key sets under the
same coverage condition on every task. -/
theorem processTasks_ok (ts : List RTask) :
    ∀ acc : MsgDict × MsgDict,
      (∀ t ∈ ts, t.name ∈ DRIFT_TASKS ∨ t.name ∈ FIX_TASKS →
        ∀ r ∈ t.hosts, r.skipped = false →
          r.host ∈ dictKeys acc.1 ∧ r.host ∈ dictKeys acc.2) →
      ∃ acc2, processTasks acc ts = .ok acc2 ∧
        dictKeys acc2.1 = dictKeys acc.1 ∧ dictKeys acc2.2 = dictKeys acc.2 := by
  induction ts with
  | nil => intro acc _; exact ⟨acc, rfl, rfl, rfl⟩
  | cons t rest ih =>
    intro acc h
    obtain ⟨acc1, hacc1, hk11, hk12⟩ := processTask_ok acc t (h t (by simp))
    obtain ⟨acc2, hacc2, hk21, hk22⟩ := ih acc1
      (fun q hq hn r hr hrs => by
        rw [hk11, hk12]
        exact h q (by simp [hq]) hn r hr hrs)
    refine ⟨acc2, ?_, hk21.trans hk11, hk22.trans hk12⟩
    simp only [processTasks, hacc1, hacc2]

/-- Helper: folding the play list succeeds and keeps both key sets under the
same coverage condition on every task of every play. -/
theorem processPlays_ok (ps : List Play) :
    ∀ acc : MsgDict × MsgDict,
      (∀ pl ∈ ps, ∀ t ∈ pl.tasks,
        t.name ∈ DRIFT_TASKS ∨ t.name ∈ FIX_TASKS →
        ∀ r ∈ t.hosts, r.skipped = false →
          r.host ∈ dictKeys acc.1 ∧ r.host ∈ dictKeys acc.2) →
      ∃ acc2, processPlays acc ps = .ok acc2 ∧
        dictKeys acc2.1 = dictKeys acc.1 ∧ dictKeys acc2.2 = dictKeys acc.2 := by
  induction ps with
  | nil => intro acc _; exact ⟨acc, rfl, rfl, rfl⟩
  | cons pl rest ih =>
    intro acc h
    obtain ⟨acc1, hacc1, hk11, hk12⟩ := processTasks_ok pl.tasks acc
      (fun t ht => h pl (by simp) t ht)
    obtain ⟨acc2, hacc2, hk21, hk22⟩ := ih acc1
      (fun q hq t ht hn r hr hrs => by
        rw [hk11, hk12]
        exact h q (by simp [hq]) t ht hn r hr hrs)
    refine ⟨acc2, ?_, hk21.trans hk11, hk22.trans hk12⟩
    simp only [processPlays, hacc1, hacc2]

/-- Helper: the initial dict is keyed exactly by the hosts of `stats`. -/
theorem dictKeys_initDict (p : Payload) :
    dictKeys (initDict p) = p.stats.map Prod.fst := by
  simp [dictKeys, initDict]

/-- Claim C10: the Run-Report Reducer is total only under the precondition
that every host named in a non-skipped drift-task or fix-task result appears
in `stats`: a concrete payload with a drift result for a host absent from
`stats` makes it raise an uncaught `KeyError`, while coverage of all such
hosts guarantees a report. -/
theorem C10_keyerror_on_unknown_host :
    (parse_ansible_json
        (some ⟨[], [⟨[⟨"Display Diff", [⟨"h1", false, "m"⟩]⟩]⟩]⟩) =
      .keyError "h1") ∧
    (∀ p : Payload,
      (∀ pl ∈ p.plays, ∀ t ∈ pl.tasks,
        t.name ∈ DRIFT_TASKS ∨ t.name ∈ FIX_TASKS →
        ∀ r ∈ t.hosts, r.skipped = false →
          r.host ∈ p.stats.map Prod.fst) →
      ∃ entries, parse_ansible_json (some p) = .report entries) := by
  refine ⟨by decide, ?_⟩
  intro p h
  obtain ⟨acc2, hacc2, _, _⟩ := processPlays_ok p.plays (initDict p, initDict p)
    (fun pl hpl t ht hn r hr hrs => by
      rw [dictKeys_initDict]
      exact ⟨h pl hpl t ht hn r hr hrs, h pl hpl t ht hn r hr hrs⟩)
  refine ⟨p.stats.map (fun hs => summarize acc2.1 acc2.2 hs.1 hs.2), ?_⟩
  simp only [parse_ansible_json, collect, hacc2]

/-- Witness for C10: the coverage precondition discharged at a concrete
payload whose only result host is listed in `stats`. -/
theorem C10_witness :
    ∃ entries,
      parse_ansible_json
        (some ⟨[("h1", ⟨0, 0⟩)],
               [⟨[⟨"Display Diff", [⟨"h1", false, "drift msg"⟩]⟩]⟩]⟩) =
        .report entries :=
  C10_keyerror_on_unknown_host.2
    ⟨[("h1", ⟨0, 0⟩)], [⟨[⟨"Display Diff", [⟨"h1", false, "drift msg"⟩]⟩]⟩]⟩
    (by decide)

end SentinelDrift
